import Mathlib

/-!
Shallow embedding of `pytube/cipher.py`: the signature-decoding pipeline.
Python strings are modelled as `List Char` (the code itself turns the
ciphered signature into a list of one-character strings before
transforming it).  The regular-expression searches in the source are
hand-compiled, pattern by pattern, into explicit scanning functions with
the same leftmost-match / greedy semantics; Python errors are modelled
with `Except`.
-/

namespace PytubeCipher

/-- Errors the pipeline raises.  The first four follow the spec's error
taxonomy (`PatternNotFound`, `UnknownOperationShape`, `UnknownOperationName`,
`MalformedCall`); `valueError` and `zeroDivision` model Python `ValueError`
(tuple-unpacking failures) and `ZeroDivisionError` (`b % len(arr)` on an
empty list), which lie outside that taxonomy. -/
inductive Err where
  | patternNotFound (stage : String)
  | unknownShape (text : List Char)
  | unknownName (name : List Char)
  | malformedCall (text : List Char)
  | valueError
  | zeroDivision
deriving DecidableEq

deriving instance DecidableEq for Except

/-- Modelled from the spec: `pytube.helpers.regex_search` is not under
`src/`; per the spec every extraction stage fails fast with a stage-named
error when its pattern has no match, and returns the matched group
otherwise. -/
def regex_search {α : Type} (found : Option α) (e : Err) : Except Err α :=
  match found with
  | some r => Except.ok r
  | none => Except.error e

/-- The character the JavaScript source writes as an opening curly brace. -/
def lbrace : Char := Char.ofNat 123

/-- The character the JavaScript source writes as a closing curly brace. -/
def rbrace : Char := Char.ofNat 125

/-- Python regex `\w` on ASCII input: letters, digits, underscore. -/
def isWordChar (c : Char) : Bool := c.isAlphanum || c == '_'

/-- The class `[a-zA-Z0-9$]` used by the entry-point pattern. -/
def isIdentChar (c : Char) : Bool := c.isAlphanum || c == '$'

/-- Python regex `\s` on ASCII input. -/
def isSpaceChar (c : Char) : Bool :=
  c == ' ' || c == '\t' || c == '\n' || c == '\r' || c == '\x0b' || c == '\x0c'

/-- The class `[a-z=\.\(\"\)]` used by the transform-plan pattern. -/
def isPlanClassChar (c : Char) : Bool :=
  c.isLower || c == '=' || c == '.' || c == '(' || c == '"' || c == ')'

/-- Consume an exact literal prefix, returning the remainder. -/
def dropLit : List Char → List Char → Option (List Char)
  | [], l => some l
  | _ :: _, [] => none
  | p :: ps, c :: cs => if p = c then dropLit ps cs else none

/-- Leftmost-match search: try the pattern matcher `f` at every start
position, earliest first, as `re.search` does. -/
def findMatch {α : Type} (f : List Char → Option α) : List Char → Option α
  | [] => f []
  | c :: rest =>
    match f (c :: rest) with
    | some r => some r
    | none => findMatch f rest

/-- Embeds Python `str.split(sep)` for a one-character separator: never returns
an empty list of groups. -/
def splitOnChar (sep : Char) : List Char → List (List Char)
  | [] => [[]]
  | c :: rest =>
    if c = sep then [] :: splitOnChar sep rest
    else
      match splitOnChar sep rest with
      | [] => [[c]]
      | g :: gs => (c :: g) :: gs

/-- Embeds Python `str.split(", ")` (the two-character separator used on the
transform-object body), non-overlapping, left to right. -/
def splitCommaSpace : List Char → List (List Char)
  | [] => [[]]
  | [c] => [[c]]
  | c1 :: c2 :: rest =>
    if c1 = ',' ∧ c2 = ' ' then [] :: splitCommaSpace rest
    else
      match splitCommaSpace (c2 :: rest) with
      | [] => [[c1]]
      | g :: gs => (c1 :: g) :: gs

/-- Split on the first colon, as Python `obj.split(":", 1)` followed by a
two-element unpacking; `none` models the `ValueError` when no colon exists. -/
def splitFirstColon : List Char → Option (List Char × List Char)
  | [] => none
  | c :: rest =>
    if c = ':' then some ([], rest)
    else
      match splitFirstColon rest with
      | some (n, f) => some (c :: n, f)
      | none => none

/-- Characters strictly before the first occurrence of the (nonempty)
literal `lit`; `none` when `lit` does not occur. -/
def takeUntilLit (lit : List Char) : List Char → Option (List Char)
  | [] => none
  | c :: rest =>
    if List.isPrefixOf lit (c :: rest) then some []
    else
      match takeUntilLit lit rest with
      | some body => some (c :: body)
      | none => none

/-- Embeds Python `str.replace` of newlines by spaces. -/
def stripNewlines (l : List Char) : List Char :=
  l.map (fun c => if c = '\n' then ' ' else c)

/-- Embeds Python `int` on a string of decimal digits. -/
def natOfDigits (l : List Char) : Nat :=
  l.foldl (fun acc c => 10 * acc + (c.toNat - 48)) 0

/-- Hand-compiled match of the pattern `"signature",\s?([a-zA-Z0-9$]+)\(`
at the head of `l`, returning the captured group.  The greedy `\s?` and
`[a-zA-Z0-9$]+` need no backtracking: a whitespace character is not an
identifier character and `(` is not one either, so the greedy choice is
the only viable one. -/
def entryMatchAt (l : List Char) : Option (List Char) :=
  match dropLit ("\"signature\",").data l with
  | none => none
  | some l1 =>
    let l2 := match l1 with
      | c :: rest => if isSpaceChar c then rest else l1
      | [] => l1
    match l2.takeWhile isIdentChar, l2.dropWhile isIdentChar with
    | [], _ => none
    | name, '(' :: _ => some name
    | _, _ => none

/-- Embeds `get_initial_function_name`: extracts the name of the function
responsible for computing the signature, searching for the pattern
`"signature",\s?([a-zA-Z0-9$]+)\(`. -/
def get_initial_function_name (js : String) : Except Err (List Char) :=
  regex_search (findMatch entryMatchAt js.data) (Err.patternNotFound "entry_point")

/-- For the transform-plan pattern's tail `;(.*);(?:.+)}` (no DOTALL):
the largest index `j` into the current line at which a `;` sits with some
`}` at index `≥ j + 2` of the same line — the greedy choice of `(.*)`. -/
def lastGoodSplit (line : List Char) : Option Nat :=
  (((List.range line.length).filter (fun j =>
      line.getD j ' ' == ';' && (line.drop (j + 2)).contains rbrace))).getLast?

/-- Hand-compiled match of `<name>=function\(\w\){[a-z=\.\(\"\)]*;(.*);(?:.+)}`
at the head of `l`, returning group 1.  The class run is followed by `;`,
which is not in the class, so it is deterministic; the `(.*)` part is the
greedy split computed by `lastGoodSplit` over the rest of the current line. -/
def planMatchAt (name : List Char) (l : List Char) : Option (List Char) :=
  match dropLit (name ++ ("=function(").data) l with
  | none => none
  | some l1 =>
    match l1 with
    | [] => none
    | c :: l2 =>
      if isWordChar c then
        match dropLit (")\x7b").data l2 with
        | none => none
        | some l3 =>
          match l3.dropWhile isPlanClassChar with
          | ';' :: l5 =>
            let line := l5.takeWhile (fun d => d ≠ '\n')
            match lastGoodSplit line with
            | some j => some (line.take j)
            | none => none
          | _ => none
      else none

/-- Embeds `get_transform_plan`: extracts the ordered list of transform calls
executed by the initial function, splitting the matched group on `;`. -/
def get_transform_plan (js : String) : Except Err (List (List Char)) := do
  let name ← get_initial_function_name js
  let g ← regex_search (findMatch (planMatchAt name) js.data)
            (Err.patternNotFound "transform_plan")
  pure (splitOnChar ';' g)

/-- Hand-compiled match of `var <var>={(.*?)};` with DOTALL at the head of
`l`: the literal header, then the lazy body up to the first `};`. -/
def objMatchAt (varName : List Char) (l : List Char) : Option (List Char) :=
  match dropLit (("var ").data ++ varName ++ ("=\x7b").data) l with
  | none => none
  | some l1 => takeUntilLit [rbrace, ';'] l1

/-- Embeds `get_transform_object`: extracts the definitions stored in the
transform object `var <var>={...};`, normalising newlines to spaces and
splitting on `", "`. -/
def get_transform_object (js : String) (varName : List Char) :
    Except Err (List (List Char)) := do
  let body ← regex_search (findMatch (objMatchAt varName) js.data)
               (Err.patternNotFound "transform_object")
  pure (splitCommaSpace (stripNewlines body))

/-- One token of a hand-compiled regex in which every token consumes
exactly one character. -/
inductive Tok where
  | lit (c : Char)
  | wordC
  | spaceC
  | anyC
deriving DecidableEq

/-- Whether a single character matches a token (`anyC` is an unescaped
`.`, which matches anything but a newline). -/
def tokMatches : Tok → Char → Bool
  | Tok.lit c, d => c == d
  | Tok.wordC, d => isWordChar d
  | Tok.spaceC, d => isSpaceChar d
  | Tok.anyC, d => d != '\n'

/-- Whether the token list matches a prefix of `l`. -/
def toksMatch : List Tok → List Char → Bool
  | [], _ => true
  | _ :: _, [] => false
  | t :: ts, c :: cs => tokMatches t c && toksMatch ts cs

/-- Search as `re.search` does for a fixed-length token pattern: does it match at some
position? -/
def searchToks (ts : List Tok) : List Char → Bool
  | [] => toksMatch ts []
  | c :: rest => toksMatch ts (c :: rest) || searchToks ts rest

/-- Literal characters of a string as tokens. -/
def litToks (s : String) : List Tok := s.data.map Tok.lit

/-- The pattern `{\w\.reverse\(\)}`. -/
def reversePat : List Tok :=
  [Tok.lit lbrace, Tok.wordC] ++ litToks ".reverse()" ++ [Tok.lit rbrace]

/-- The pattern `{\w\.splice\(0,\w\)}`. -/
def splicePat : List Tok :=
  [Tok.lit lbrace, Tok.wordC] ++ litToks ".splice(0," ++
    [Tok.wordC, Tok.lit ')', Tok.lit rbrace]

/-- The pattern `{var\s\w=\w\[0\];\w\[0\]=\w\[\w\%\w.length\];\w\[\w\]=\w}`
(the `.` before `length` is unescaped in the source, hence `anyC`). -/
def swapPat : List Tok :=
  [Tok.lit lbrace] ++ litToks "var" ++ [Tok.spaceC, Tok.wordC, Tok.lit '=', Tok.wordC] ++
    litToks "[0];" ++ [Tok.wordC] ++ litToks "[0]=" ++
    [Tok.wordC, Tok.lit '[', Tok.wordC, Tok.lit '%', Tok.wordC, Tok.anyC] ++
    litToks "length];" ++
    [Tok.wordC, Tok.lit '[', Tok.wordC, Tok.lit ']', Tok.lit '=', Tok.wordC, Tok.lit rbrace]

/-- The three Python transform functions a definition can resolve to. -/
inductive PyFn where
  | reverse
  | splice
  | swap
deriving DecidableEq

/-- Embeds `reverse(arr, b)`: immutable equivalent the source gives for
`function(a, b) { a.reverse() }`; the second argument is unused. -/
def reverse {α : Type} (arr : List α) (b : Nat) : List α := arr.reverse

/-- Embeds `splice(arr, b)`: the source computes `arr[:b] + arr[b * 2:]`. -/
def splice {α : Type} (arr : List α) (b : Nat) : List α :=
  arr.take b ++ arr.drop (b * 2)

/-- Embeds `swap(arr, b)`: the source computes `r = b % len(arr)` — a
`ZeroDivisionError` when `arr` is empty — and then
`list(chain([arr[r]], arr[1:r], [arr[0]], arr[r + 1:]))`. -/
def swap {α : Type} : List α → Nat → Except Err (List α)
  | [], _ => Except.error Err.zeroDivision
  | a0 :: rest, b =>
    let arr := a0 :: rest
    let r := b % arr.length
    Except.ok (arr.getD r a0 :: ((arr.drop 1).take (r - 1) ++ a0 :: arr.drop (r + 1)))

/-- Embeds `map_functions`: classify a JavaScript function body against the three
known shapes, in order; otherwise fail with the definition text. -/
def map_functions (jsFunc : List Char) : Except Err PyFn :=
  if searchToks reversePat jsFunc then Except.ok PyFn.reverse
  else if searchToks splicePat jsFunc then Except.ok PyFn.splice
  else if searchToks swapPat jsFunc then Except.ok PyFn.swap
  else Except.error (Err.unknownShape jsFunc)

/-- Embeds `get_transform_map`: split each definition on its first colon and
classify the function part; entries are consed so that a later duplicate
name shadows an earlier one, as assignment into a Python dict does. -/
def get_transform_map (js : String) (varName : List Char) :
    Except Err (List (List Char × PyFn)) := do
  let tobj ← get_transform_object js varName
  tobj.foldlM
    (fun mapper obj =>
      match splitFirstColon obj with
      | none => Except.error Err.valueError
      | some (name, fn) => do
        let f ← map_functions fn
        pure ((name, f) :: mapper))
    []

/-- Dict lookup in the cons-built transform map (first hit is the most
recent insertion). -/
def lookupFn (name : List Char) : List (List Char × PyFn) → Option PyFn
  | [] => none
  | (n, f) :: rest => if n = name then some f else lookupFn name rest

/-- Hand-compiled match of `\w+\.(\w+)\(\w,(\d+)\)` at the head of `l`,
returning the two captured groups.  Every greedy run is followed by a
character outside its class, so no backtracking arises. -/
def parseFnAt (l : List Char) : Option (List Char × List Char) :=
  match l.takeWhile isWordChar, l.dropWhile isWordChar with
  | [], _ => none
  | _ :: _, '.' :: l1 =>
    match l1.takeWhile isWordChar, l1.dropWhile isWordChar with
    | [], _ => none
    | name, '(' :: l2 =>
      match l2 with
      | c :: ',' :: l3 =>
        if isWordChar c then
          match l3.takeWhile Char.isDigit, l3.dropWhile Char.isDigit with
          | [], _ => none
          | digits, ')' :: _ => some (name, digits)
          | _, _ => none
        else none
      | _ => none
    | _, _ => none
  | _, _ => none

/-- Embeds `parse_function`: break a transform call such as `DE.AJ(a,15)` into
the function name and its integer argument (still as digits). -/
def parse_function (jsFunc : List Char) : Except Err (List Char × List Char) :=
  regex_search (findMatch parseFnAt jsFunc) (Err.malformedCall jsFunc)

/-- Apply a resolved transform function to the evolving signature. -/
def applyFn : PyFn → List Char → Nat → Except Err (List Char)
  | PyFn.reverse, arr, b => Except.ok (reverse arr b)
  | PyFn.splice, arr, b => Except.ok (splice arr b)
  | PyFn.swap, arr, b => swap arr b

/-- Embeds `get_signature`: run the whole pipeline — transform plan, container
name from the first call, transform map, then fold the calls over the
ciphered signature's characters and rejoin them. -/
def get_signature (js : String) (cipheredSignature : String) : Except Err String := do
  let tplan ← get_transform_plan js
  let first ← match tplan with
    | f :: _ => Except.ok f
    | [] => Except.error Err.valueError
  let varName ← match splitOnChar '.' first with
    | [v, _] => Except.ok v
    | _ => Except.error Err.valueError
  let tmap ← get_transform_map js varName
  let final ← tplan.foldlM
    (fun signature call => do
      let (name, argument) ← parse_function call
      match lookupFn name tmap with
      | some fn => applyFn fn signature (natOfDigits argument)
      | none => Except.error (Err.unknownName name))
    cipheredSignature.data
  pure (String.mk final)

/-- A concrete script asset of the shape the spec's end-to-end test
describes: entry point `EE`, plan `DE.AJ(a,0)` then `DE.VR(a,2)`,
container `DE` defining `AJ` with a reversal body and `VR` with a
crop-front (`splice`) body. -/
def demoScript : String :=
  "var DE=\x7bAJ:function(a)\x7ba.reverse()\x7d, VR:function(a,b)\x7ba.splice(0,b)\x7d\x7d;EE=function(a)\x7ba=a.split(\"\");DE.AJ(a,0);DE.VR(a,2);return a.join(\"\")\x7d;c&&d.set(\"signature\", EE(c));"

/-- A concrete script asset whose plan consists of the single rotary-swap
call `DE.kT(a,3)`, with the swap body defined in container `DE`. -/
def swapScript : String :=
  "var DE=\x7bkT:function(a,b)\x7bvar c=a[0];a[0]=a[b%a.length];a[b]=c\x7d\x7d;EE=function(a)\x7ba=a.split(\"\");DE.kT(a,3);return a.join(\"\")\x7d;c&&d.set(\"signature\", EE(c));"

/-- Helper: if the matcher fails at every start position, the leftmost
search fails. -/
theorem findMatch_eq_none {α : Type} (f : List Char → Option α) :
    ∀ l : List Char, (∀ i, f (l.drop i) = none) → findMatch f l = none := by
  intro l
  induction l with
  | nil =>
    intro h
    have h0 := h 0
    simp only [List.drop_nil] at h0
    simp [findMatch, h0]
  | cons c rest ih =>
    intro h
    have h0 : f (c :: rest) = none := by simpa using h 0
    have hrest : ∀ i, f (rest.drop i) = none := fun i => by simpa using h (i + 1)
    simp [findMatch, h0, ih hrest]

/-- Helper: if a fixed-length token pattern matches at no start position,
the search over all positions returns `false`. -/
theorem searchToks_eq_false (ts : List Tok) :
    ∀ l : List Char, (∀ i, toksMatch ts (l.drop i) = false) → searchToks ts l = false := by
  intro l
  induction l with
  | nil =>
    intro h
    have h0 := h 0
    simp only [List.drop_nil] at h0
    simp [searchToks, h0]
  | cons c rest ih =>
    intro h
    have h0 : toksMatch ts (c :: rest) = false := by simpa using h 0
    have hrest : ∀ i, toksMatch ts (rest.drop i) = false := fun i => by simpa using h (i + 1)
    simp [searchToks, h0, ih hrest]

/-- Helper: a character split always yields at least one group, exactly as
Python `str.split` does. -/
theorem splitOnChar_ne_nil (sep : Char) (l : List Char) : splitOnChar sep l ≠ [] := by
  induction l with
  | nil => simp [splitOnChar]
  | cons c rest ih =>
    simp only [splitOnChar]
    split
    · simp
    · split <;> simp

/-- Claim C1: the claim says the splice operation drops the first `b`
elements, with `splice([1,2,3,4], 2) = [3,4]`; the code instead keeps the
first `b` elements and drops the middle slice `[b, 2b)`, returning
`[1,2]` on that input. -/
theorem splice_keeps_front_not_drops :
    splice [1, 2, 3, 4] 2 = [1, 2] ∧ splice [1, 2, 3, 4] 2 ≠ [3, 4] := by
  decide

/-- Claim C2: on the spec's own end-to-end example (reverse, then
crop-front 2, applied to "abcdef") the claim expects "dcba"; the code's
splice keeps the front instead of dropping it, so the pipeline returns
"feba". -/
theorem get_signature_demo_not_crop :
    get_signature demoScript "abcdef" = Except.ok "feba" ∧
      get_signature demoScript "abcdef" ≠ Except.ok "dcba" := by
  decide

/-- Claim C3: the claim says swapping is a no-op when `r = b % len(a) = 0`;
the code instead duplicates the head there: `swap([1,2,3,4], 0)` returns
`[1,1,2,3,4]`, not `[1,2,3,4]`. -/
theorem swap_zero_not_noop :
    swap [1, 2, 3, 4] 0 = Except.ok [1, 1, 2, 3, 4] ∧
      swap [1, 2, 3, 4] 0 ≠ Except.ok [1, 2, 3, 4] := by
  decide

/-- Claim C4: the claim says applying swap twice with the same argument
restores the input; with `a = [1,2]` and `b = 0` the code's head
duplication at `r = 0` gives `[1,1,1,2]` instead of `[1,2]`. -/
theorem swap_twice_not_involution :
    (swap [1, 2] 0).bind (fun x => swap x 0) = Except.ok [1, 1, 1, 2] ∧
      (swap [1, 2] 0).bind (fun x => swap x 0) ≠ Except.ok [1, 2] := by
  decide

/-- Claim C5: reverse is an involution — for every sequence and any values
of the ignored second argument, reversing twice restores the input. -/
theorem reverse_involution {α : Type} (a : List α) (b b' : Nat) :
    reverse (reverse a b) b' = a := by
  simp [reverse]

/-- Claim C6: splicing with argument 0 is the identity, so cropping zero
elements after a crop returns the cropped sequence unchanged. -/
theorem splice_zero_identity {α : Type} (a : List α) (b : Nat) :
    splice (splice a b) 0 = splice a b := by
  simp [splice]

/-- Claim C7: whenever the entry-point marker (the literal signature
marker followed by an identifier call) matches at no position of the
script, `get_initial_function_name` fails with exactly
`PatternNotFound("entry_point")`. -/
theorem entry_point_missing_error (js : String)
    (h : ∀ i, entryMatchAt (js.data.drop i) = none) :
    get_initial_function_name js = Except.error (Err.patternNotFound "entry_point") := by
  unfold get_initial_function_name
  rw [findMatch_eq_none entryMatchAt js.data h]
  rfl

/-- Claim C7 witness: the empty script has no entry-point marker and the
locator reports exactly the entry-point pattern error on it. -/
theorem entry_point_missing_error_witness :
    (∀ i, entryMatchAt ((("") : String).data.drop i) = none) ∧
      get_initial_function_name "" = Except.error (Err.patternNotFound "entry_point") := by
  have h : ∀ i, entryMatchAt ((("") : String).data.drop i) = none := by
    intro i
    rw [show (("") : String).data = ([] : List Char) from rfl, List.drop_nil]
    rfl
  exact ⟨h, entry_point_missing_error "" h⟩

/-- Claim C8: a definition text at which none of the three canonical
shape patterns (reversal, crop-front splice, rotary swap) matches at any
position makes `map_functions` fail with `UnknownOperationShape` carrying
that very text. -/
theorem map_functions_unknown_shape (s : List Char)
    (h1 : ∀ i, toksMatch reversePat (s.drop i) = false)
    (h2 : ∀ i, toksMatch splicePat (s.drop i) = false)
    (h3 : ∀ i, toksMatch swapPat (s.drop i) = false) :
    map_functions s = Except.error (Err.unknownShape s) := by
  unfold map_functions
  rw [searchToks_eq_false reversePat s h1, searchToks_eq_false splicePat s h2,
    searchToks_eq_false swapPat s h3]
  rfl

/-- Claim C8 witness: the empty definition text matches none of the three
shapes and the resolver rejects it with `UnknownOperationShape`. -/
theorem map_functions_unknown_shape_witness :
    (∀ i, toksMatch reversePat (([] : List Char).drop i) = false) ∧
      (∀ i, toksMatch splicePat (([] : List Char).drop i) = false) ∧
      (∀ i, toksMatch swapPat (([] : List Char).drop i) = false) ∧
      map_functions [] = Except.error (Err.unknownShape []) := by
  have h1 : ∀ i, toksMatch reversePat (([] : List Char).drop i) = false := by
    intro i; rw [List.drop_nil]; rfl
  have h2 : ∀ i, toksMatch splicePat (([] : List Char).drop i) = false := by
    intro i; rw [List.drop_nil]; rfl
  have h3 : ∀ i, toksMatch swapPat (([] : List Char).drop i) = false := by
    intro i; rw [List.drop_nil]; rfl
  exact ⟨h1, h2, h3, map_functions_unknown_shape [] h1 h2 h3⟩

/-- Claim C9: for every script, transform-plan extraction either fails
with an error or returns a non-empty list of call expressions — the split
on `;` can never produce an empty list. -/
theorem get_transform_plan_ne_nil (js : String) :
    (∃ e, get_transform_plan js = Except.error e) ∨
      (∃ l, get_transform_plan js = Except.ok l ∧ l ≠ []) := by
  cases hn : get_initial_function_name js with
  | error e =>
    exact Or.inl ⟨e, by simp [get_transform_plan, hn, Bind.bind, Except.bind]⟩
  | ok name =>
    cases hf : findMatch (planMatchAt name) js.data with
    | none =>
      refine Or.inl ⟨Err.patternNotFound "transform_plan", ?_⟩
      simp [get_transform_plan, hn, hf, regex_search, Bind.bind, Except.bind,
        Functor.map, Except.map]
    | some g =>
      refine Or.inr ⟨splitOnChar ';' g, ?_, splitOnChar_ne_nil ';' g⟩
      simp [get_transform_plan, hn, hf, regex_search, Bind.bind, Except.bind,
        Functor.map, Except.map, Pure.pure, Except.pure]

/-- Claim C10: the swap operation is partial on the empty sequence — the
modulus `b % len(arr)` raises an unguarded `ZeroDivisionError`, outside
the spec's four-type taxonomy — and decoding an empty ciphered signature
through a plan containing a rotary-swap call crashes with that error. -/
theorem swap_empty_zero_division :
    (∀ b : Nat, swap ([] : List Char) b = Except.error Err.zeroDivision) ∧
      get_signature swapScript "" = Except.error Err.zeroDivision := by
  constructor
  · intro b; rfl
  · decide

end PytubeCipher
